import Mathlib

/-!
A shallow embedding of the OpenTamPy client library (src/OpenTamPy.py):
JSON values as produced by json.loads, the Munch record wrapper and its
overridden hash, the response validator, username-to-person-id resolution,
the default timetable window of _get_mon_and_sun, strict strptime date
parsing for custom timetable windows, the regex-based extraction layer,
the functools cache memoization of the Intranet methods, and Python
generator semantics. The theorems at the end settle the specification
claims against this embedding.
-/

namespace OpenTamPy

/-- Python exceptions that can escape the library code, both the exception
classes the library defines and the builtin ones its statements can raise. -/
inductive PyError where
  | assertionError (msg : String)
  | badStatusCode (msg : String)
  | badTimestamp (msg : String)
  | userIdNotMatching
  | valueError (msg : String)
  | attributeError (msg : String)
  | wrongWebpageReturned (msg : String)
  | missingPermission
  | keyError (key : String)
  | jsonDecodeError
  deriving DecidableEq, Repr

/-- Parsed JSON values as produced by json.loads: objects are association
lists of fields in document order (json.loads yields dicts, whose keys are
unique), numbers are modeled as integers (the portal payloads carry integral
numbers). -/
inductive JValue where
  | null
  | bool (b : Bool)
  | num (n : Int)
  | str (s : String)
  | arr (items : List JValue)
  | obj (fields : List (String × JValue))

/-- Python subscription d[k] for a parsed JSON object (munchified or not:
Munch attribute access content.k is the same dict lookup). none models the
KeyError / AttributeError raised on a missing field or non-dict value. -/
def jLookup : JValue → String → Option JValue
  | .obj fields, k => fields.lookup k
  | _, _ => none

/-- munchify with the overridden factory: recursively wraps dicts as Munch
records. Attribute access, equality and iteration of a Munch are exactly
those of the underlying dict, so the wrapper is content-preserving; its one
behavioral addition, the overridden hash, is modeled by Munch.hashSet. -/
def munchify (v : JValue) : JValue := v

/-- The overridden Munch.hash of the source: hash of frozenset(self.toDict()).
Iterating a dict yields its keys, so the frozenset holds the top-level field
names; the Python hash value is a function of that set and is modeled by the
set itself. Non-dict values are not Munch instances and get no such hash. -/
def Munch.hashSet : JValue → Option (Finset String)
  | .obj fields => some ((fields.map Prod.fst).toFinset)
  | _ => none

/-- Python equality on parsed JSON values, as inherited by Munch from dict:
null, booleans, numbers and strings compare by value, lists pointwise, and
dicts compare as CPython dict_equal does - equal size, and every key of the
left dict present in the right one with a Python-equal value. -/
inductive PyEq : JValue → JValue → Prop where
  | null : PyEq .null .null
  | bool (b : Bool) : PyEq (.bool b) (.bool b)
  | num (n : Int) : PyEq (.num n) (.num n)
  | str (s : String) : PyEq (.str s) (.str s)
  | arrNil : PyEq (.arr []) (.arr [])
  | arrCons {x y : JValue} {xs ys : List JValue} :
      PyEq x y → PyEq (.arr xs) (.arr ys) → PyEq (.arr (x :: xs)) (.arr (y :: ys))
  | obj {a b : List (String × JValue)} :
      a.length = b.length →
      (∀ k v, (k, v) ∈ a → (b.lookup k).isSome = true) →
      (∀ k v w, (k, v) ∈ a → b.lookup k = some w → PyEq v w) →
      PyEq (.obj a) (.obj b)

/-- The dict invariant of json.loads output: top-level field names are
pairwise distinct. -/
def NoDupKeys (a : List (String × JValue)) : Prop := (a.map Prod.fst).Nodup

/-- Model of requests.Response: HTTP status code and raw body text. -/
structure Response where
  status_code : Nat
  body : String
  deriving DecidableEq, Repr

/-- requests.Response.ok: False exactly for the HTTP error statuses 400-599
(raise_for_status raises for those and for no others). -/
def Response.ok (r : Response) : Bool :=
  decide (r.status_code < 400 ∨ 600 ≤ r.status_code)

/-- Model of _verify_response_code: assert response.ok with the message
"Error " followed by the status code; on success log the endpoint name and
return the very same response object. -/
def verify_response_code (_name : String) (r : Response) : Except PyError Response :=
  if r.ok then .ok r else .error (.assertionError ("Error " ++ toString r.status_code))

/-- Discriminator: did a call raise the library exception BadStatusCode. -/
def raised_bad_status_code : Except PyError Response → Bool
  | .error (.badStatusCode _) => true
  | _ => false

/-- One roster entry of get_resources().students: display name in the format
"lastname, firstname" and the numeric person id. -/
structure Student where
  name : String
  personId : Int
  deriving DecidableEq, Repr

/-- Python str.split with separator "." over the character list: split at
every dot, keeping empty parts; the empty string splits into one empty part. -/
def splitDots : List Char → List (List Char)
  | [] => [[]]
  | c :: rest =>
    if c = '.' then [] :: splitDots rest
    else
      match splitDots rest with
      | p :: ps => (c :: p) :: ps
      | [] => [[c]]

/-- Python str.lower on one character (the names handled are ASCII). -/
def lowerChar (c : Char) : Char :=
  if 65 ≤ c.toNat ∧ c.toNat ≤ 90 then Char.ofNat (c.toNat + 32) else c

/-- Python str.lower. -/
def pyLower (s : String) : String := String.mk (s.toList.map lowerChar)

/-- Whitespace test of Python str.strip. -/
def isPySpace (c : Char) : Bool :=
  c = ' ' ∨ c = Char.ofNat 10 ∨ c = Char.ofNat 9 ∨ c = Char.ofNat 13

/-- Python str.strip: leading and trailing whitespace removed. -/
def pyStrip (s : String) : String :=
  String.mk (((s.toList.dropWhile isPySpace).reverse.dropWhile isPySpace).reverse)

/-- The comparison of the roster loop: the string built as
lastname.lower().strip() followed by ", " and firstname.lower().strip()
equals entry.name.lower() (the roster name itself is not stripped). -/
def roster_name_matches (firstname lastname : String) (i : Student) : Bool :=
  (pyStrip (pyLower lastname) ++ ", " ++ pyStrip (pyLower firstname)) == pyLower i.name

/-- Model of _match_username_to_user_id: unpack username.split(".") into
firstname and lastname - a ValueError unless there are exactly two parts,
raised before any roster entry is looked at - then return the personId of
the first roster entry whose lowercased name matches; raise UserIdNotMatching
when no entry matches. -/
def match_username_to_user_id (username : String) (students : List Student) :
    Except PyError Int :=
  match (splitDots username.toList).map (fun l => String.mk l) with
  | [firstname, lastname] =>
    match students.find? (roster_name_matches firstname lastname) with
    | some i => .ok i.personId
    | none => .error .userIdNotMatching
  | _ => .error (.valueError "unpacking username.split needs exactly two values")

/-- Python date.weekday() for a date given as days since the UNIX epoch:
1970-01-01 was a Thursday, and Monday is 0. -/
def weekday (todayDays : Int) : Int := (todayDays + 3).emod 7

/-- Digit accumulator shared by the decimal scanners. -/
def digitsAcc : Nat → List Char → Nat × List Char
  | acc, c :: rest =>
    if 48 ≤ c.toNat ∧ c.toNat ≤ 57 then digitsAcc (acc * 10 + (c.toNat - 48)) rest
    else (acc, c :: rest)
  | acc, [] => (acc, [])

/-- Python int() on a canonical decimal string (the only strings the source
feeds it are decimal literals it built itself). -/
def pyInt (s : String) : Int :=
  match s.toList with
  | '-' :: rest => -(((digitsAcc 0 rest).1 : Int))
  | l => (((digitsAcc 0 l).1 : Int))

/-- Model of _get_mon_and_sun for a fixed value of date.today(), the date
given as days since the UNIX epoch. calendar.timegm of a date's timetuple is
days * 86400; the source subtracts 7200 seconds from the Monday of the
current week, appends "000" to the decimal string, and builds the end of the
window by parsing that string back to an integer, adding 691200 and appending
"000" once more. -/
def get_mon_and_sun (todayDays : Int) : String × String :=
  let diff := weekday todayDays
  let prev_mon := toString ((todayDays - diff) * 86400 - 7200) ++ "000"
  let next_sun := toString (pyInt prev_mon + 691200) ++ "000"
  (prev_mon, next_sun)

/-- A calendar date as produced by datetime.strptime. -/
structure PyDate where
  year : Nat
  month : Nat
  day : Nat
  deriving DecidableEq, Repr

/-- Leap-year test of the datetime module. -/
def leapN (y : Nat) : Nat :=
  if (y % 4 = 0 ∧ ¬ y % 100 = 0) ∨ y % 400 = 0 then 1 else 0

/-- Days in a month, as validated by the datetime constructor. -/
def daysInMonth (y m : Nat) : Nat :=
  match m with
  | 1 => 31 | 2 => 28 + leapN y | 3 => 31 | 4 => 30 | 5 => 31 | 6 => 30
  | 7 => 31 | 8 => 31 | 9 => 30 | 10 => 31 | 11 => 30 | 12 => 31
  | _ => 0

/-- Days in year y before the first of month m (datetime's table). -/
def daysBeforeMonth (y m : Nat) : Nat :=
  match m with
  | 1 => 0 | 2 => 31 | 3 => 59 + leapN y | 4 => 90 + leapN y | 5 => 120 + leapN y
  | 6 => 151 + leapN y | 7 => 181 + leapN y | 8 => 212 + leapN y | 9 => 243 + leapN y
  | 10 => 273 + leapN y | 11 => 304 + leapN y | 12 => 334 + leapN y
  | _ => 0

/-- Days before January 1 of year y in the proleptic Gregorian calendar, so
that the ordinal of a date is daysBeforeYear of its year plus daysBeforeMonth
plus the day of month (datetime's date arithmetic, for positive years). -/
def daysBeforeYear (y : Nat) : Nat :=
  365 * (y - 1) + (y - 1) / 4 + (y - 1) / 400 - (y - 1) / 100

/-- date.toordinal: January 1 of year 1 is ordinal 1. -/
def toOrdinal (dt : PyDate) : Nat :=
  daysBeforeYear dt.year + daysBeforeMonth dt.year dt.month + dt.day

/-- datetime(y, m, d).timestamp() for the naive local midnight, where tz is
the fixed UTC offset of the local timezone in seconds: ordinal 719163 is
1970-01-01, and the timestamp of local midnight is the UTC midnight epoch
second count minus the offset. -/
def tsSec (tz : Int) (dt : PyDate) : Int :=
  ((toOrdinal dt : Int) - 719163) * 86400 - tz

/-- Dates accepted by the datetime constructor: month 1-12, day at least 1
and at most the month length, positive year. -/
def ValidDate (dt : PyDate) : Prop :=
  1 ≤ dt.month ∧ dt.month ≤ 12 ∧ 1 ≤ dt.day ∧
    dt.day ≤ daysInMonth dt.year dt.month ∧ 1 ≤ dt.year

/-- Chronological strict order on calendar dates. -/
def dateLt (a b : PyDate) : Prop :=
  a.year < b.year ∨ (a.year = b.year ∧ a.month < b.month)
    ∨ (a.year = b.year ∧ a.month = b.month ∧ a.day < b.day)

/-- ASCII digit test of the strptime field regexes. -/
def isDig (c : Char) : Bool := decide (48 ≤ c.toNat ∧ c.toNat ≤ 57)

/-- Value of an ASCII digit. -/
def dval (c : Char) : Nat := c.toNat - 48

/-- Field matcher for the strptime directives with two-digit maximum hi, that
is d (hi = 31, regex 3[01], [12] then a digit, 0[1-9] or [1-9]) and m
(hi = 12, regex 1[0-2], 0[1-9] or [1-9]): two leading digits are taken when
they form a value from 1 to hi, else a single nonzero digit. Whenever the
two-digit alternatives fail with a second digit present, the single-digit
alternative leaves that digit to be matched against the literal dot of the
format and the whole parse fails either way, so this greedy rule matches the
backtracking regex on the format used here. -/
def takeNum2 (hi : Nat) : List Char → Option (Nat × List Char)
  | c1 :: c2 :: rest =>
    if isDig c1 then
      if isDig c2 then
        if 1 ≤ 10 * dval c1 + dval c2 ∧ 10 * dval c1 + dval c2 ≤ hi then
          some (10 * dval c1 + dval c2, rest)
        else none
      else if 1 ≤ dval c1 then some (dval c1, c2 :: rest) else none
    else none
  | [c1] => if isDig c1 ∧ 1 ≤ dval c1 then some (dval c1, []) else none
  | [] => none

/-- Field matcher for the strptime directive y: exactly two digits. -/
def takeYear2 : List Char → Option (Nat × List Char)
  | c1 :: c2 :: rest =>
    if isDig c1 ∧ isDig c2 then some (10 * dval c1 + dval c2, rest) else none
  | _ => none

/-- Model of datetime.strptime(s, "%d.%m.%y") followed by the datetime
constructor's validation: day field, literal dot, month field, literal dot,
exactly two year digits, end of string (strptime rejects unconverted
trailing data); two-digit years 0-68 map to 2000-2068 and 69-99 to
1969-1999; finally the day must exist in the parsed month. -/
def strptimeDMY (s : String) : Option PyDate :=
  match takeNum2 31 s.toList with
  | some (d, r1) =>
    match r1 with
    | '.' :: r2 =>
      match takeNum2 12 r2 with
      | some (m, r3) =>
        match r3 with
        | '.' :: r4 =>
          match takeYear2 r4 with
          | some (yy, []) =>
            let y := if yy ≤ 68 then 2000 + yy else 1900 + yy
            if d ≤ daysInMonth y m then some ⟨y, m, d⟩ else none
          | _ => none
        | _ => none
      | none => none
    | _ => none
  | none => none

/-- Outcome of the date-window logic at the top of get_timetable, the code
that runs once the returned generator is first consumed. -/
inductive WindowOutcome where
  | defaultWindow (startStr endStr : String)
  | badTimestamp
  | proceeds (startMs endMs : Int) (loggedViolation : Bool)
  deriving DecidableEq, Repr

/-- Model of get_timetable's start and end date handling: both arguments are
passed through str(); when both are "0" the memoized default week window of
_get_mon_and_sun is used; otherwise both strings go through strict strptime
(a failure of either raises BadTimestamp), are converted to millisecond
timestamps of the local midnight (tz is the local UTC offset in seconds, the
fractional-free float truncated by int() then scaled by 1000), and the
assertion that the start lies strictly before the end is caught on failure
and only logged, after which the request still proceeds. -/
def timetable_window (tz : Int) (todayDays : Int) (start_date end_date : String) :
    WindowOutcome :=
  if start_date = "0" ∧ end_date = "0" then
    .defaultWindow (get_mon_and_sun todayDays).1 (get_mon_and_sun todayDays).2
  else
    match strptimeDMY start_date, strptimeDMY end_date with
    | some d1, some d2 =>
      let s := tsSec tz d1 * 1000
      let e := tsSec tz d2 * 1000
      .proceeds s e (decide (¬ s < e))
    | _, _ => .badTimestamp

/-- Backslash character. -/
def bslash : Char := Char.ofNat 92

/-- Single quote character. -/
def squote : Char := Char.ofNat 39

/-- Double quote character. -/
def dquote : Char := Char.ofNat 34

/-- Newline character. -/
def nl : Char := Char.ofNat 10

/-- Opening curly brace. -/
def obrace : Char := Char.ofNat 123

/-- Closing curly brace. -/
def cbrace : Char := Char.ofNat 125

/-- repr escaping done by str() on a bytes value, restricted to the bodies
this model covers (printable ASCII text): backslash, single quote and
newline are escaped, everything else is kept. -/
def reprEscChar (c : Char) : List Char :=
  if c = bslash then [bslash, bslash]
  else if c = squote then [bslash, squote]
  else if c = nl then [bslash, 'n']
  else [c]

/-- Python str(response.content) for a bytes body: the letter b, a quote, the
repr-escaped body, a closing quote. -/
def pyStrBytes (body : String) : List Char :=
  'b' :: squote :: ((body.toList.map reprEscChar).flatten ++ [squote])

/-- Python replace of two backslashes by one, scanning left to right over
non-overlapping occurrences (the source's replace of the double-escaping). -/
def unescapeBackslashes : List Char → List Char
  | c1 :: c2 :: rest =>
    if c1 = bslash ∧ c2 = bslash then bslash :: unescapeBackslashes rest
    else c1 :: unescapeBackslashes (c2 :: rest)
  | l => l

/-- Leftmost index at which pat occurs as a contiguous sublist of s. -/
def findSub (pat : List Char) : List Char → Option Nat
  | [] => if pat = [] then some 0 else none
  | c :: rest =>
    if pat.isPrefixOf (c :: rest) then some 0
    else (findSub pat rest).map (· + 1)

/-- Rightmost index at which pat occurs as a contiguous sublist of s. -/
def findLastSub (pat : List Char) : List Char → Option Nat
  | [] => if pat = [] then some 0 else none
  | c :: rest =>
    match findLastSub pat rest with
    | some i => some (i + 1)
    | none => if pat.isPrefixOf (c :: rest) then some 0 else none

/-- The text the lookbehind of the absences regex requires, together with the
literal opening brace that starts the match. -/
def anchorPat : List Char := ("gridDataAndConfiguration:").toList ++ [obrace]

/-- The closing brace and the literal ",front" that end the absences regex. -/
def closePat : List Char := cbrace :: (",front").toList

/-- Worker for the search with the absences regex: at each position where the
lookbehind text and the opening brace match, the greedy dot-star runs to the
rightmost "close brace ,front" on the same line (the dot does not match a
newline); if that line has none the scan resumes at later positions, and
with no position left the search returns None. -/
def searchGridDataAux : Nat → List Char → Option (List Char)
  | 0, _ => none
  | fuel + 1, s =>
    match findSub anchorPat s with
    | none => none
    | some i =>
      let line := (s.drop (i + anchorPat.length)).takeWhile (fun c => c != nl)
      match findLastSub closePat line with
      | some j => some (obrace :: line.take (j + closePat.length))
      | none => searchGridDataAux fuel (s.drop (i + 1))

/-- Model of re.search with the module's absences regex over a text,
returning the matched text (the group() of the match object), or None. -/
def searchGridData (s : List Char) : Option (List Char) :=
  searchGridDataAux (s.length + 1) s

/-- Whitespace skipped by the JSON parser. -/
def skipWs : List Char → List Char
  | c :: rest =>
    if c = ' ' ∨ c = nl ∨ c = Char.ofNat 13 ∨ c = Char.ofNat 9 then skipWs rest
    else c :: rest
  | [] => []

/-- JSON string body scanner, after the opening double quote: collects
characters up to the closing quote, decoding the simple escapes. -/
def pStringAux : List Char → List Char → Option (List Char × List Char)
  | acc, c :: rest =>
    if c = dquote then some (acc.reverse, rest)
    else if c = bslash then
      match rest with
      | e :: rest2 =>
        let decoded := if e = 'n' then nl else if e = 't' then Char.ofNat 9 else e
        pStringAux (decoded :: acc) rest2
      | [] => none
    else pStringAux (c :: acc) rest
  | _, [] => none

mutual

/-- Recursive-descent JSON value parser (fuel bounds the recursion and is
ample at one unit per input character). -/
def pValue (fuel : Nat) (input : List Char) : Option (JValue × List Char) :=
  match fuel with
  | 0 => none
  | fuel' + 1 =>
    match skipWs input with
    | [] => none
    | c :: rest =>
      if c = obrace then pObjectBody fuel' rest true []
      else if c = Char.ofNat 91 then pArrayBody fuel' rest true []
      else if c = dquote then
        match pStringAux [] rest with
        | some (chars, r) => some (.str (String.mk chars), r)
        | none => none
      else if c = '-' then
        match rest with
        | d :: _ =>
          if 48 ≤ d.toNat ∧ d.toNat ≤ 57 then
            let nr := digitsAcc 0 rest
            some (.num (-(nr.1 : Int)), nr.2)
          else none
        | [] => none
      else if 48 ≤ c.toNat ∧ c.toNat ≤ 57 then
        let nr := digitsAcc 0 (c :: rest)
        some (.num ((nr.1 : Int)), nr.2)
      else
        match c :: rest with
        | 't' :: 'r' :: 'u' :: 'e' :: r => some (.bool true, r)
        | 'f' :: 'a' :: 'l' :: 's' :: 'e' :: r => some (.bool false, r)
        | 'n' :: 'u' :: 'l' :: 'l' :: r => some (.null, r)
        | _ => none

/-- Member list of a JSON object, entered right after the opening brace or a
comma; first marks whether a closing brace may come immediately. -/
def pObjectBody (fuel : Nat) (input : List Char) (first : Bool)
    (acc : List (String × JValue)) : Option (JValue × List Char) :=
  match fuel with
  | 0 => none
  | fuel' + 1 =>
    match skipWs input with
    | [] => none
    | c :: rest =>
      if first ∧ c = cbrace then some (.obj acc.reverse, rest)
      else if c = dquote then
        match pStringAux [] rest with
        | none => none
        | some (kcs, r1) =>
          match skipWs r1 with
          | ':' :: r2 =>
            match pValue fuel' r2 with
            | none => none
            | some (v, r3) =>
              match skipWs r3 with
              | ',' :: r4 => pObjectBody fuel' r4 false ((String.mk kcs, v) :: acc)
              | c2 :: r4 =>
                if c2 = cbrace then
                  some (.obj (((String.mk kcs, v) :: acc).reverse), r4)
                else none
              | [] => none
          | _ => none
      else none

/-- Element list of a JSON array, entered right after the opening bracket or
a comma. -/
def pArrayBody (fuel : Nat) (input : List Char) (first : Bool)
    (acc : List JValue) : Option (JValue × List Char) :=
  match fuel with
  | 0 => none
  | fuel' + 1 =>
    match skipWs input with
    | [] => none
    | c :: rest =>
      if first ∧ c = Char.ofNat 93 then some (.arr acc.reverse, rest)
      else
        match pValue fuel' (c :: rest) with
        | none => none
        | some (v, r1) =>
          match skipWs r1 with
          | ',' :: r2 => pArrayBody fuel' r2 false (v :: acc)
          | c2 :: r2 => if c2 = Char.ofNat 93 then some (.arr ((v :: acc).reverse), r2) else none
          | [] => none

end

/-- Model of json.loads on the JSON subset the portal emits (objects, arrays,
strings with simple escapes, integers, booleans, null): None models the
JSONDecodeError raised on malformed text or trailing data. -/
def jsonLoads (s : String) : Option JValue :=
  match pValue (s.length + 1) s.toList with
  | some (v, rest) => if skipWs rest = [] then some v else none
  | none => none

/-- A Python generator object: it holds the not-yet-yielded tail of its
sequence. -/
structure PyGen where
  remaining : List JValue

/-- The yield loop shared by get_timetable, get_absences, get_class_mates and
get_class_teachers: a generator that yields munchify of every element of the
extracted data list, in order. -/
def record_generator (data : List JValue) : PyGen :=
  ⟨data.map munchify⟩

/-- Fully consuming iteration of a generator (a for loop or list()): every
remaining element is yielded exactly once and the generator is left
exhausted. -/
def iterate_all (g : PyGen) : List JValue × PyGen :=
  (g.remaining, ⟨[]⟩)

/-- Shared tail of the three list-endpoint operations, applied to the text
they feed to re.search: a failed search returns None and the group() call on
it raises AttributeError; a match is trimmed of its 6-character ",front"
suffix, the double escaping is collapsed, the text is parsed as JSON (a
failure here is an uncaught JSONDecodeError, not WrongWebpageReturned), the
data field of the data field is taken (KeyError when absent) and its list is
yielded munchified. -/
def extract_grid_records (text : List Char) : Except PyError PyGen :=
  match searchGridData text with
  | none => .error (.attributeError "NoneType object has no attribute group")
  | some matched =>
    let source := unescapeBackslashes (matched.take (matched.length - 6))
    match jsonLoads (String.mk source) with
    | none => .error .jsonDecodeError
    | some v =>
      match jLookup v "data" with
      | none => .error (.keyError "data")
      | some inner =>
        match jLookup inner "data" with
        | none => .error (.keyError "data")
        | some (.arr objs) => .ok (record_generator objs)
        | some _ => .error (.valueError "not iterable")

/-- Model of the extraction in get_absences and get_class_mates: the regex
runs over str(response.content), the repr of the raw bytes. -/
def list_endpoint_records (body : String) : Except PyError PyGen :=
  extract_grid_records (pyStrBytes body)

/-- Model of the extraction in get_class_teachers: the regex runs over the
decoded body text itself. -/
def class_teachers_records (body : String) : Except PyError PyGen :=
  extract_grid_records body.toList

/-- The text _get_lesson_absence_data parses: str(content) sliced [2:-1],
which textually undoes the bytes repr wrapper, with double backslashes
collapsed. -/
def lesson_payload_text (body : String) : String :=
  let raw := pyStrBytes body
  String.mk (unescapeBackslashes ((raw.drop 2).take ((raw.drop 2).length - 1)))

/-- Model of _get_lesson_absence_data's parsing stage: a JSON parse failure
of the sliced payload is caught and re-raised as WrongWebpageReturned (this
is the one place in the module that raises it). -/
def lesson_absence_payload (body : String) : Except PyError JValue :=
  match jsonLoads (lesson_payload_text body) with
  | none => .error (.wrongWebpageReturned
      "Intranet returned reauth page. This is likely an authentication error")
  | some v => .ok v

/-- Discriminator: did a call on this path raise WrongWebpageReturned. -/
def raised_wrong_webpage : Except PyError PyGen → Bool
  | .error (.wrongWebpageReturned _) => true
  | _ => false

/-- Model of set_homework_data after its POST, applied to the parsed response
JSON: content is the munchified payload, the source asserts that the data
attribute differs from the empty list with the plain message "Missing
permissions" - an AssertionError; the MissingPermission exception class is
never raised - and on success returns content. -/
def set_homework_data (respJson : JValue) : Except PyError JValue :=
  let content := munchify respJson
  match jLookup content "data" with
  | none => .error (.attributeError "data")
  | some d =>
    match d with
    | .arr [] => .error (.assertionError "Missing permissions")
    | _ => .ok content

/-- Model of the final stage of get_timetable: the response JSON must carry
status 1 (asserted), and the generator yields munchify of every entry of its
data list. -/
def timetable_records (resp : JValue) : Except PyError PyGen :=
  match jLookup resp "status" with
  | none => .error (.keyError "status")
  | some st =>
    match st with
    | .num 1 =>
      match jLookup resp "data" with
      | none => .error (.keyError "data")
      | some (.arr lessons) => .ok (record_generator lessons)
      | some _ => .error (.valueError "not iterable")
    | _ => .error (.assertionError "Bad status code")

/-- The Intranet methods that perform domain operations, as cache keys. -/
inductive Op where
  | get_resources
  | get_timetable
  | get_absences
  | get_class_mates
  | get_class_teachers
  | get_lesson_absence_data_inner
  | get_lesson_absence_data
  | get_additional_homework_info
  | set_homework_data
  | get_person_picture
  deriving DecidableEq, Repr

/-- Which Intranet methods carry the functools cache decorator in the source:
every one of them except set_homework_data and get_person_picture (and the
delegating delete_homework_info, which is not a cache key of its own). -/
def isCached : Op → Bool
  | .set_homework_data => false
  | .get_person_picture => false
  | _ => true

/-- A client instance: the server oracle gives the response of each operation
and argument tuple as a function of the number of requests already made (so
it can model server state changing between calls); tick counts the requests
issued; memo is the instance-lifetime cache, keyed by method and argument
tuple (argument tuples are modeled opaquely by an identifier - functools
keys them through the hashable Munch arguments). -/
structure Client where
  srv : Op → Nat → Nat → JValue
  tick : Nat
  memo : List ((Op × Nat) × JValue)

/-- Memo table lookup by exact key. -/
def memoLookup (key : Op × Nat) : List ((Op × Nat) × JValue) → Option JValue
  | [] => none
  | (k, v) :: rest => if key = k then some v else memoLookup key rest

/-- One HTTP round trip: the response is the server's answer at the current
tick, and the tick advances. -/
def fetch (c : Client) (op : Op) (arg : Nat) : JValue × Client :=
  (c.srv op arg c.tick, { c with tick := c.tick + 1 })

/-- Call semantics of an Intranet method: a method carrying the cache
decorator first consults the memo table keyed by its arguments - unbounded,
never invalidated for the lifetime of the instance - and stores a fresh
result on a miss; a method without the decorator performs the request every
time and thus observes the current server state. -/
def call (c : Client) (op : Op) (arg : Nat) : JValue × Client :=
  if isCached op then
    match memoLookup (op, arg) c.memo with
    | some r => (r, c)
    | none =>
      let rc := fetch c op arg
      (rc.1, { rc.2 with memo := ((op, arg), rc.1) :: rc.2.memo })
  else fetch c op arg

/-- A server whose state changes after the first request: the first response
differs from every later one. -/
def changing_srv : Op → Nat → Nat → JValue :=
  fun _ _ t => if t = 0 then .obj [("data", .str "first")] else .obj [("data", .str "second")]

/-- A freshly constructed client talking to the changing server. -/
def fresh_client : Client := ⟨changing_srv, 0, []⟩

/-! Helper lemmas. -/

theorem splitDots_length (l : List Char) :
    (splitDots l).length = l.count '.' + 1 := by
  induction l with
  | nil => simp [splitDots]
  | cons c rest ih =>
    by_cases h : c = '.'
    · subst h
      simp [splitDots, List.count_cons, ih]
    · rw [List.count_cons]
      simp only [splitDots, if_neg h]
      cases hs : splitDots rest with
      | nil => rw [hs] at ih; simp at ih
      | cons p ps =>
        rw [hs] at ih
        simp at ih ⊢
        simp [ih, h]

theorem dval_le_nine {c : Char} (h : isDig c = true) : 1 ≤ c.toNat ∧ dval c ≤ 9 := by
  simp [isDig] at h
  unfold dval
  omega

theorem takeNum2_bounds {hi : Nat} (h9 : 9 ≤ hi) :
    ∀ {l r : List Char} {v : Nat},
      takeNum2 hi l = some (v, r) → 1 ≤ v ∧ v ≤ hi := by
  intro l r v h
  match l with
  | [] => exact absurd h (by simp [takeNum2])
  | [c1] =>
    simp only [takeNum2] at h
    split at h
    · rename_i hcond
      obtain ⟨hd1, hv1⟩ := hcond
      have := dval_le_nine hd1
      simp only [Option.some.injEq, Prod.mk.injEq] at h
      omega
    · exact absurd h (by simp)
  | c1 :: c2 :: rest =>
    simp only [takeNum2] at h
    split at h
    case isFalse => exact absurd h (by simp)
    case isTrue hd1 =>
      have hb1 := dval_le_nine hd1
      split at h
      case isTrue hd2 =>
        have hb2 := dval_le_nine hd2
        split at h
        · rename_i hcond
          simp only [Option.some.injEq, Prod.mk.injEq] at h
          omega
        · exact absurd h (by simp)
      case isFalse =>
        split at h
        · rename_i hv1
          simp only [Option.some.injEq, Prod.mk.injEq] at h
          omega
        · exact absurd h (by simp)

theorem leapN_le_one (y : Nat) : leapN y ≤ 1 := by
  unfold leapN
  split <;> omega

theorem strptime_valid {s : String} {dt : PyDate}
    (h : strptimeDMY s = some dt) : ValidDate dt := by
  unfold strptimeDMY at h
  cases h1 : takeNum2 31 s.toList with
  | none => rw [h1] at h; exact absurd h (by simp)
  | some dr =>
    obtain ⟨d, r1⟩ := dr
    rw [h1] at h
    have hd := takeNum2_bounds (by omega) h1
    match r1 with
    | [] => exact absurd h (by simp)
    | c :: r2 =>
      by_cases hc : c = '.'
      case neg =>
        exact absurd h (by simp [hc])
      subst hc
      simp only at h
      cases h2 : takeNum2 12 r2 with
      | none => rw [h2] at h; exact absurd h (by simp)
      | some mr =>
        obtain ⟨m, r3⟩ := mr
        rw [h2] at h
        have hm := takeNum2_bounds (by omega) h2
        match r3 with
        | [] => exact absurd h (by simp)
        | c2 :: r4 =>
          by_cases hc2 : c2 = '.'
          case neg =>
            exact absurd h (by simp [hc2])
          subst hc2
          simp only at h
          cases h3 : takeYear2 r4 with
          | none => rw [h3] at h; exact absurd h (by simp)
          | some yr =>
            obtain ⟨yy, r5⟩ := yr
            rw [h3] at h
            match r5 with
            | _ :: _ => exact absurd h (by simp)
            | [] =>
              simp only at h
              split at h
              case isTrue hle =>
                split at h
                case isTrue hdim =>
                  injection h with h4
                  subst h4
                  exact ⟨hm.1, hm.2, hd.1, hdim, (by omega : 1 ≤ 2000 + yy)⟩
                case isFalse => exact absurd h (by simp)
              case isFalse hle =>
                split at h
                case isTrue hdim =>
                  injection h with h4
                  subst h4
                  exact ⟨hm.1, hm.2, hd.1, hdim, (by omega : 1 ≤ 1900 + yy)⟩
                case isFalse => exact absurd h (by simp)

set_option maxHeartbeats 2000000 in
theorem daysBeforeYear_succ {y : Nat} (hy : 1 ≤ y) :
    daysBeforeYear (y + 1) = daysBeforeYear y + 365 + leapN y := by
  by_cases hc : (y % 4 = 0 ∧ ¬ y % 100 = 0) ∨ y % 400 = 0
  · have h3 : leapN y = 1 := by rw [leapN, if_pos hc]
    rw [daysBeforeYear, daysBeforeYear, h3]
    omega
  · have h3 : leapN y = 0 := by rw [leapN, if_neg hc]
    rw [daysBeforeYear, daysBeforeYear, h3]
    omega

theorem daysBeforeYear_mono {y y' : Nat} (h : y ≤ y') :
    daysBeforeYear y ≤ daysBeforeYear y' := by
  unfold daysBeforeYear
  have h4 : (y - 1) / 4 ≤ (y' - 1) / 4 := Nat.div_le_div_right (by omega)
  have h400 : (y - 1) / 400 ≤ (y' - 1) / 400 := Nat.div_le_div_right (by omega)
  omega

theorem inYear_le {y m d : Nat} (hm1 : 1 ≤ m) (hm2 : m ≤ 12)
    (hd : d ≤ daysInMonth y m) :
    daysBeforeMonth y m + d ≤ 365 + leapN y := by
  have hl := leapN_le_one y
  interval_cases m <;> simp [daysBeforeMonth, daysInMonth] at hd ⊢ <;> omega

theorem daysBeforeMonth_le (y : Nat) {i j : Nat} (h1 : 1 ≤ i) (hij : i ≤ j)
    (hj : j ≤ 12) : daysBeforeMonth y i ≤ daysBeforeMonth y j := by
  have hl := leapN_le_one y
  have hi12 : i ≤ 12 := le_trans hij hj
  have h1j : 1 ≤ j := le_trans h1 hij
  interval_cases i <;> interval_cases j <;>
    simp [daysBeforeMonth] <;> omega

theorem daysBeforeMonth_step {y m d : Nat} (hm1 : 1 ≤ m) (hm2 : m ≤ 11)
    (hd : d ≤ daysInMonth y m) :
    daysBeforeMonth y m + d ≤ daysBeforeMonth y (m + 1) := by
  interval_cases m <;> simp [daysBeforeMonth, daysInMonth] at hd ⊢ <;> omega

theorem toOrdinal_lt {a b : PyDate} (ha : ValidDate a) (hb : ValidDate b)
    (hlt : dateLt a b) : toOrdinal a < toOrdinal b := by
  obtain ⟨ham1, ham2, had1, had2, hay⟩ := ha
  obtain ⟨hbm1, hbm2, hbd1, hbd2, hby⟩ := hb
  unfold toOrdinal
  rcases hlt with hy | ⟨hy, hm⟩ | ⟨hy, hm, hd⟩
  · have h1 : daysBeforeMonth a.year a.month + a.day ≤ 365 + leapN a.year :=
      inYear_le ham1 ham2 had2
    have h2 : daysBeforeYear (a.year + 1)
        = daysBeforeYear a.year + 365 + leapN a.year := daysBeforeYear_succ hay
    have h3 : daysBeforeYear (a.year + 1) ≤ daysBeforeYear b.year :=
      daysBeforeYear_mono (by omega)
    omega
  · rw [hy]
    have h1 : daysBeforeMonth b.year a.month + a.day
        ≤ daysBeforeMonth b.year (a.month + 1) := by
      refine daysBeforeMonth_step ham1 (by omega) ?_
      rw [hy] at had2
      exact had2
    have h2 : daysBeforeMonth b.year (a.month + 1) ≤ daysBeforeMonth b.year b.month :=
      daysBeforeMonth_le b.year (by omega) (by omega) hbm2
    omega
  · rw [hy, hm]
    omega

theorem tsSec_lt (tz : Int) {a b : PyDate} (ha : ValidDate a) (hb : ValidDate b)
    (hlt : dateLt a b) : tsSec tz a < tsSec tz b := by
  have h := toOrdinal_lt ha hb hlt
  unfold tsSec
  have h2 : (toOrdinal a : Int) < (toOrdinal b : Int) := by exact_mod_cast h
  omega

theorem lookup_mem_pairs {k : String} {w : JValue} :
    ∀ {b : List (String × JValue)}, b.lookup k = some w → (k, w) ∈ b := by
  intro b
  induction b with
  | nil => intro h; exact absurd h (by simp)
  | cons p rest ih =>
    obtain ⟨k2, v2⟩ := p
    intro h
    by_cases hk : k = k2
    · subst hk
      simp [List.lookup] at h
      subst h
      exact List.mem_cons_self _ _
    · simp only [List.lookup, beq_eq_false_iff_ne.mpr hk] at h
      exact List.mem_cons_of_mem _ (ih h)

theorem lookup_isSome_key_mem {k : String} {b : List (String × JValue)}
    (h : (b.lookup k).isSome = true) : k ∈ b.map Prod.fst := by
  cases hl : b.lookup k with
  | none => rw [hl] at h; simp at h
  | some w =>
    have := lookup_mem_pairs hl
    exact List.mem_map.mpr ⟨(k, w), this, rfl⟩

theorem pyEq_obj_keys {a b : List (String × JValue)}
    (h : PyEq (.obj a) (.obj b)) (hna : NoDupKeys a) (hnb : NoDupKeys b) :
    (a.map Prod.fst).toFinset = (b.map Prod.fst).toFinset := by
  cases h with
  | obj hlen hsome _ =>
    have hsub : (a.map Prod.fst).toFinset ⊆ (b.map Prod.fst).toFinset := by
      intro k hk
      rw [List.mem_toFinset] at hk ⊢
      obtain ⟨⟨k2, v⟩, hmem, hfst⟩ := List.mem_map.mp hk
      dsimp at hfst
      subst hfst
      exact lookup_isSome_key_mem (hsome _ _ hmem)
    have hca : (a.map Prod.fst).toFinset.card = a.length := by
      rw [List.toFinset_card_of_nodup hna, List.length_map]
    have hcb : (b.map Prod.fst).toFinset.card = b.length := by
      rw [List.toFinset_card_of_nodup hnb, List.length_map]
    exact Finset.eq_of_subset_of_card_le hsub (by omega)

/-! Claim theorems. -/

/-- C1: evaluation of the memoized default window at the fixed date
2021-12-08 (a Wednesday, epoch day 18969), the window get_timetable uses
when both dates are omitted. The window start is 1638741600000, the
millisecond timestamp of Monday 2021-12-06 00:00 at UTC+2; but the window
end is 1638742291200000, produced by appending another "000" to the
already-millisecond start plus 691200 seconds worth of days: it is not the
following Sunday 24:00 boundary, start plus seven days in milliseconds
(1639346400000), claimed by the specification and by the function's own
comment and docstring. -/
theorem C1_bug_eval :
    get_mon_and_sun 18969 = ("1638741600000", "1638742291200000")
      ∧ timetable_window 0 18969 "0" "0"
          = .defaultWindow "1638741600000" "1638742291200000"
      ∧ pyInt "1638742291200000" ≠ pyInt "1638741600000" + 7 * 86400 * 1000 := by
  refine ⟨by rfl, by rfl, by decide⟩

/-- C2 counterexample: set_homework_data carries no cache decorator, so a
second call with identical arguments issues a fresh request and returns the
changed server state instead of the first cached result (get_person_picture
is uncached as well) - the claim that every domain operation is memoized
fails on these two. -/
theorem C2_counterexample :
    (call fresh_client .set_homework_data 0).1 = .obj [("data", .str "first")]
      ∧ (call (call fresh_client .set_homework_data 0).2 .set_homework_data 0).1
          = .obj [("data", .str "second")]
      ∧ (call fresh_client .set_homework_data 0).1
          ≠ (call (call fresh_client .set_homework_data 0).2 .set_homework_data 0).1
      ∧ isCached .set_homework_data = false
      ∧ isCached .get_person_picture = false := by
  refine ⟨rfl, rfl, ?_, rfl, rfl⟩
  intro hcon
  injection hcon with h1
  injection h1 with h2 h3
  injection h2 with h4 h5
  injection h5 with h6
  exact absurd h6 (by decide)

/-- C2 amended: every domain operation except set_homework_data (with its
delegating delete_homework_info) and get_person_picture is unconditionally
memoized: on a cached operation, a hit returns the stored result without a
request, and after a first call a second call with identical arguments
returns exactly the first result and state - independent of any change in
server state between the two calls. -/
theorem C2_amended_thm (c : Client) (op : Op) (arg : Nat)
    (hop : isCached op = true) :
    (∀ r, memoLookup (op, arg) c.memo = some r → call c op arg = (r, c))
      ∧ (memoLookup (op, arg) c.memo = none →
          call (call c op arg).2 op arg = call c op arg) := by
  constructor
  · intro r hr
    simp [call, hop, hr]
  · intro hn
    have h1 : call c op arg
        = (c.srv op arg c.tick,
           { srv := c.srv, tick := c.tick + 1,
             memo := ((op, arg), c.srv op arg c.tick) :: c.memo }) := by
      simp [call, fetch, hop, hn]
    rw [h1]
    simp [call, fetch, hop, memoLookup]

/-- C2 witness: on the changing server, a cached operation returns the same
result and state on the repeated call, still the state-0 response. -/
theorem C2_amended_witness :
    call (call fresh_client .get_resources 0).2 .get_resources 0
        = call fresh_client .get_resources 0
      ∧ (call fresh_client .get_resources 0).1 = .obj [("data", .str "first")] := by
  exact ⟨(C2_amended_thm fresh_client .get_resources 0 rfl).2 rfl, rfl⟩

/-- C3: for a custom window (not both arguments "0"), a strict parse failure
of either date raises BadTimestamp; when both dates parse the call proceeds
with the two millisecond timestamps and no exception is raised even when the
start is not strictly before the end (the assertion failure is caught and
only logged, recorded here in the outcome's flag); and the conversion is
strictly monotone, so chronologically increasing dates yield strictly
increasing millisecond timestamps. -/
theorem C3_thm (tz todayDays : Int) (s e : String) (hc : ¬(s = "0" ∧ e = "0")) :
    ((strptimeDMY s = none ∨ strptimeDMY e = none) →
        timetable_window tz todayDays s e = .badTimestamp)
      ∧ (∀ d1 d2, strptimeDMY s = some d1 → strptimeDMY e = some d2 →
          timetable_window tz todayDays s e
            = .proceeds (tsSec tz d1 * 1000) (tsSec tz d2 * 1000)
                (decide (¬ tsSec tz d1 * 1000 < tsSec tz d2 * 1000))
            ∧ (dateLt d1 d2 → tsSec tz d1 * 1000 < tsSec tz d2 * 1000)) := by
  constructor
  · intro hp
    unfold timetable_window
    rw [if_neg hc]
    rcases hp with hs | he
    · cases h2 : strptimeDMY e with
      | none => rw [hs]
      | some d2 => rw [hs]
    · cases h1 : strptimeDMY s with
      | none => rw [he]
      | some d1 => rw [he]
  · intro d1 d2 h1 h2
    constructor
    · unfold timetable_window
      rw [if_neg hc, h1, h2]
    · intro hlt
      have hm := tsSec_lt tz (strptime_valid h1) (strptime_valid h2) hlt
      omega

/-- C3 witness: the malformed "2021-12-05" raises BadTimestamp, and the
documented example window 05.12.21 to 23.02.22 proceeds with the two
increasing millisecond timestamps (at UTC offset 0). -/
theorem C3_witness :
    timetable_window 0 0 "2021-12-05" "23.02.22" = .badTimestamp
      ∧ timetable_window 0 0 "05.12.21" "23.02.22"
          = .proceeds 1638662400000 1645574400000 false := by
  constructor
  · exact (C3_thm 0 0 "2021-12-05" "23.02.22" (by decide)).1 (Or.inl (by rfl))
  · have h := ((C3_thm 0 0 "05.12.21" "23.02.22" (by decide)).2
      ⟨2021, 12, 5⟩ ⟨2022, 2, 23⟩ (by rfl) (by rfl)).1
    rw [h]
    decide

/-- C4 counterexample: on HTTP 500 the check raises AssertionError with the
message "Error 500" - not BadStatusCode - and the message does not carry the
caller's label: the failure is identical under any label. -/
theorem C4_counterexample :
    verify_response_code "homework-data" ⟨500, ""⟩
        = .error (.assertionError "Error 500")
      ∧ raised_bad_status_code (verify_response_code "homework-data" ⟨500, ""⟩) = false
      ∧ verify_response_code "absence-data" ⟨500, ""⟩
          = verify_response_code "homework-data" ⟨500, ""⟩ := by
  exact ⟨rfl, rfl, rfl⟩

/-- C4 amended: the check returns the very same response object unchanged
when response.ok holds (status outside 400-599), and for every non-ok status
it raises AssertionError carrying the status code; the label is not part of
the raised error, and BadStatusCode is never raised. -/
theorem C4_amended_thm (name : String) (r : Response) :
    (r.ok = true → verify_response_code name r = .ok r)
      ∧ (r.ok = false →
          verify_response_code name r
            = .error (.assertionError ("Error " ++ toString r.status_code))
          ∧ raised_bad_status_code (verify_response_code name r) = false) := by
  constructor
  · intro h
    simp [verify_response_code, h]
  · intro h
    simp [verify_response_code, h, raised_bad_status_code]

/-- C4 witness: the amended statement applied at HTTP 200 and at HTTP 500. -/
theorem C4_amended_witness :
    verify_response_code "base-url" ⟨200, ""⟩ = .ok ⟨200, ""⟩
      ∧ verify_response_code "base-url" ⟨500, ""⟩
          = .error (.assertionError "Error 500") := by
  exact ⟨(C4_amended_thm "base-url" ⟨200, ""⟩).1 (by decide),
    ((C4_amended_thm "base-url" ⟨500, ""⟩).2 (by decide)).1⟩

/-- C5 counterexample: with two roster entries matching the username
john.doe, identity resolution does not fail with UserIdNotMatching - it
silently returns the first matching personId, so the exactly-one invariant
is not enforced. -/
theorem C5_counterexample :
    match_username_to_user_id "john.doe"
        [⟨"Doe, John", 1⟩, ⟨"Doe, John", 2⟩] = .ok 1
      ∧ (List.filter (roster_name_matches "john" "doe")
          [⟨"Doe, John", 1⟩, ⟨"Doe, John", 2⟩]).length = 2 := by
  exact ⟨rfl, rfl⟩

/-- C5 amended: identity resolution returns the personId of the first roster
entry whose lowercased name equals "lastname, firstname" built from the
lowercased, stripped username parts, and fails with UserIdNotMatching
exactly when no entry matches; the number of matches beyond the first is
never inspected. -/
theorem C5_amended_thm (username : String) (students : List Student)
    (firstname lastname : String)
    (hsplit : (splitDots username.toList).map (fun l => String.mk l)
        = [firstname, lastname]) :
    (∀ i, students.find? (roster_name_matches firstname lastname) = some i →
        match_username_to_user_id username students = .ok i.personId)
      ∧ (students.find? (roster_name_matches firstname lastname) = none →
        match_username_to_user_id username students = .error .userIdNotMatching) := by
  have heq : match_username_to_user_id username students
      = match students.find? (roster_name_matches firstname lastname) with
        | some i => .ok i.personId
        | none => .error .userIdNotMatching := by
    unfold match_username_to_user_id
    rw [hsplit]
  constructor
  · intro i hi
    rw [heq, hi]
  · intro hn
    rw [heq, hn]

/-- C5 witness: the amended statement applied to a roster with one matching
entry. -/
theorem C5_amended_witness :
    match_username_to_user_id "John.Doe"
        [⟨"Muster, Max", 3⟩, ⟨"Doe, John", 7⟩] = .ok 7 := by
  exact (C5_amended_thm "John.Doe" [⟨"Muster, Max", 3⟩, ⟨"Doe, John", 7⟩]
    "John" "Doe" (by decide)).1 ⟨"Doe, John", 7⟩ (by decide)

/-- C6 counterexample: on a body without the embedded-JSON pattern (a login
page), get_absences and get_class_mates fail with AttributeError from
calling group() on None - not with WrongWebpageReturned. -/
theorem C6_counterexample :
    list_endpoint_records "<html>Bitte anmelden</html>"
        = .error (.attributeError "NoneType object has no attribute group")
      ∧ raised_wrong_webpage
          (list_endpoint_records "<html>Bitte anmelden</html>") = false := by
  exact ⟨rfl, rfl⟩

/-- C6 amended: when the embedded-JSON pattern is absent, get_absences,
get_class_mates and get_class_teachers fail with AttributeError (the regex
search returns None and group() is called on it); only
_get_lesson_absence_data signals WrongWebpageReturned, and it does so when
its transformed response body fails JSON parsing. -/
theorem C6_amended_thm (bodyA bodyT bodyL : String)
    (hA : searchGridData (pyStrBytes bodyA) = none)
    (hT : searchGridData bodyT.toList = none)
    (hL : jsonLoads (lesson_payload_text bodyL) = none) :
    list_endpoint_records bodyA
        = .error (.attributeError "NoneType object has no attribute group")
      ∧ class_teachers_records bodyT
        = .error (.attributeError "NoneType object has no attribute group")
      ∧ lesson_absence_payload bodyL
        = .error (.wrongWebpageReturned
            "Intranet returned reauth page. This is likely an authentication error") := by
  refine ⟨?_, ?_, ?_⟩
  · unfold list_endpoint_records extract_grid_records
    rw [hA]
  · unfold class_teachers_records extract_grid_records
    rw [hT]
  · unfold lesson_absence_payload
    rw [hL]

/-- C6 witness: the amended statement applied to a login-page body. -/
theorem C6_amended_witness :
    list_endpoint_records "<html>login page</html>"
        = .error (.attributeError "NoneType object has no attribute group")
      ∧ class_teachers_records "<html>login page</html>"
        = .error (.attributeError "NoneType object has no attribute group")
      ∧ lesson_absence_payload "<html>login page</html>"
        = .error (.wrongWebpageReturned
            "Intranet returned reauth page. This is likely an authentication error") := by
  exact C6_amended_thm "<html>login page</html>" "<html>login page</html>"
    "<html>login page</html>" (by rfl) (by rfl) (by rfl)

/-- C7: evaluation of set_homework_data at an empty server payload (data is
the empty list, the server's signal of insufficient privilege): the call
fails with AssertionError "Missing permissions", not with the
MissingPermission exception the claim and the function's own docstring
promise; with a non-empty payload it returns the munchified server response
carrying the submitted title and description. -/
theorem C7_bug_eval :
    set_homework_data (.obj [("status", .num 1), ("data", .arr [])])
        = .error (.assertionError "Missing permissions")
      ∧ set_homework_data (.obj [("status", .num 1), ("data", .arr [])])
        ≠ .error .missingPermission
      ∧ set_homework_data (.obj [("data", .arr [.obj [("title", .str "essay"),
            ("description", .str "page 12")]])])
        = .ok (munchify (.obj [("data", .arr [.obj [("title", .str "essay"),
            ("description", .str "page 12")]])])) := by
  refine ⟨rfl, ?_, rfl⟩
  intro hcon
  injection hcon with h1
  exact PyError.noConfusion h1

/-- C9 counterexample: the generator returned by the timetable and list
operations is not restartable: after one full iteration over a one-lesson
sequence, a second iteration yields the empty sequence, not the same
Records again. -/
theorem C9_counterexample :
    (iterate_all (iterate_all (record_generator [JValue.num 1])).2).1
      ≠ (iterate_all (record_generator [JValue.num 1])).1 := by
  intro hcon
  exact List.noConfusion hcon

/-- C9 amended: the operations produce a lazy single-use sequence: the first
full iteration yields the munchified records in extraction order (shown here
on the timetable response), and every later iteration of the now exhausted
generator yields nothing. -/
theorem C9_amended_thm (data : List JValue) :
    timetable_records (.obj [("status", .num 1), ("data", .arr data)])
        = .ok (record_generator data)
      ∧ (iterate_all (record_generator data)).1 = data.map munchify
      ∧ (iterate_all (iterate_all (record_generator data)).2).1 = [] := by
  exact ⟨rfl, rfl, rfl⟩

/-- C8: two JSON objects with identical field sets - Python-equal as dicts,
each with the unique keys json.loads produces - munchify to Records that are
equal (the wrapper preserves content, so dict equality carries over) and
whose overridden hashes coincide: the frozenset of field names is determined
by the field set. -/
theorem C8_thm (a b : List (String × JValue)) (hna : NoDupKeys a)
    (hnb : NoDupKeys b) (h : PyEq (.obj a) (.obj b)) :
    PyEq (munchify (.obj a)) (munchify (.obj b))
      ∧ Munch.hashSet (munchify (.obj a)) = Munch.hashSet (munchify (.obj b)) := by
  refine ⟨h, ?_⟩
  have hk := pyEq_obj_keys h hna hnb
  simp only [munchify, Munch.hashSet, hk]

/-- C8 witness: two records with the same fields in different order are
Python-equal and the theorem gives them equal hashes. -/
theorem C8_witness :
    Munch.hashSet (munchify (.obj [("name", .str "Doe, John"), ("personId", .num 7)]))
      = Munch.hashSet (munchify (.obj [("personId", .num 7), ("name", .str "Doe, John")])) := by
  have h : PyEq (.obj [("name", .str "Doe, John"), ("personId", .num 7)])
      (.obj [("personId", .num 7), ("name", .str "Doe, John")]) := by
    refine PyEq.obj rfl ?_ ?_
    · intro k v hkv
      simp at hkv
      rcases hkv with ⟨hk, hv⟩ | ⟨hk, hv⟩ <;> subst hk <;> exact rfl
    · intro k v w hkv hlk
      simp at hkv
      rcases hkv with ⟨hk, hv⟩ | ⟨hk, hv⟩ <;> subst hk <;> subst hv
      · have h2 : List.lookup "name"
            [("personId", JValue.num 7), ("name", JValue.str "Doe, John")]
            = some (.str "Doe, John") := rfl
        rw [h2] at hlk
        injection hlk with h3
        subst h3
        exact PyEq.str _
      · have h2 : List.lookup "personId"
            [("personId", JValue.num 7), ("name", JValue.str "Doe, John")]
            = some (.num 7) := rfl
        rw [h2] at hlk
        injection hlk with h3
        subst h3
        exact PyEq.num _
  exact (C8_thm _ _ (by unfold NoDupKeys; decide) (by unfold NoDupKeys; decide) h).2

/-- C10: whenever the configured username does not contain exactly one dot,
username.split unpacking fails with ValueError before any roster entry is
compared - the result is the same for every roster, and it is not
UserIdNotMatching. -/
theorem C10_thm (username : String) (students : List Student)
    (h : username.toList.count '.' ≠ 1) :
    match_username_to_user_id username students
        = .error (.valueError "unpacking username.split needs exactly two values")
      ∧ match_username_to_user_id username students
        = match_username_to_user_id username [] := by
  have hlen := splitDots_length username.toList
  have hne : ((splitDots username.toList).map (fun l => String.mk l)).length ≠ 2 := by
    rw [List.length_map]
    omega
  unfold match_username_to_user_id
  rcases hs : (splitDots username.toList).map (fun l => String.mk l)
    with _ | ⟨a, _ | ⟨b, _ | ⟨c, t⟩⟩⟩
  · exact ⟨rfl, rfl⟩
  · exact ⟨rfl, rfl⟩
  · rw [hs] at hne
    simp at hne
  · exact ⟨rfl, rfl⟩

/-- C10 witness: a dotless username and a twice-dotted username both fail
with ValueError, even against a roster entry that would otherwise match. -/
theorem C10_witness :
    match_username_to_user_id "johndoe" [⟨"doe, john", 7⟩]
        = .error (.valueError "unpacking username.split needs exactly two values")
      ∧ match_username_to_user_id "john.h.doe" [⟨"doe, john", 7⟩]
        = .error (.valueError "unpacking username.split needs exactly two values") := by
  exact ⟨(C10_thm "johndoe" [⟨"doe, john", 7⟩] (by decide)).1,
    (C10_thm "john.h.doe" [⟨"doe, john", 7⟩] (by decide)).1⟩

end OpenTamPy
